import Mathlib

/-!
Shallow embedding of `app.py`, a river-status dashboard generator.
The embedding covers the severity and trend colour tables, flow
formatting, the timestamp change gate, output filename derivation, and
the row layout and connector geometry of the rendered image.
Definitions are translated from the Python source; text measurement
(PIL `draw.textlength`) is abstracted as a `String → Nat` width
function parameter, since the concrete font metrics are external to
the program logic.
-/

namespace SitUpdate

/-! ## Module-level constants (`app.py` lines 36-104, 365-376) -/

def W : Nat := 1080

def SEVERITY_COLORS : List (String × String) :=
  [("NORMAL", "#0F8A26"), ("LOW", "#00B5E2"), ("MEDIUM", "#F2B233"),
   ("HIGH", "#C95E0C"), ("VERY_HIGH", "#FF2222"), ("V_HIGH", "#FF2222"),
   ("EX_HIGH", "#5A0A0A"), ("EXCEPTIONALLY_HIGH", "#5A0A0A"),
   ("EXCEPTIONALLY HIGH", "#5A0A0A"), ("VERY HIGH", "#FF2222")]

def SEVERITY_DISPLAY : List (String × String) :=
  [("NORMAL", "Normal"), ("LOW", "Low"), ("MEDIUM", "Medium"),
   ("HIGH", "High"), ("VERY_HIGH", "V High"), ("EX_HIGH", "Ex High"),
   ("EXCEPTIONALLY_HIGH", "Ex High"), ("EXCEPTIONALLY HIGH", "Ex High"),
   ("VERY HIGH", "V High")]

def TREND_COLORS : List (String × String) :=
  [("Falling", "#32CD32"), ("Steady", "#008000"), ("Rising", "#E00000")]

/-- Python dict lookup `m.get(k)` for a literal dict, modelled as an
association list (the literal dicts above have no duplicate keys). -/
def dictGet : List (String × String) → String → Option String
  | [], _ => none
  | (k, v) :: rest, key => if key = k then some v else dictGet rest key

def MARGIN_L : Nat := 48
def TEXT_W : Nat := 690
def TITLE_GAP : Nat := 12
def ROW_GAP : Nat := 20
def GROUP_GAP : Nat := 24
def HEADER_H : Nat := 250
def SEP_H : Nat := 13
def TIMEX : Nat := W - 230
def DOT_R : Nat := 24
def LINE_W : Nat := 6
def LABEL_PADX : Nat := 44

def FONT_H1_SIZE : Nat := 48
def FONT_BODY_SIZE : Nat := 34

/-! ## Flow formatting (`format_flow`, lines 165-172)

The Python code does `str(discharge).replace(',', '')`, then
`f"{int(clean):,} cusecs"`, falling back to `f"{discharge} cusecs"` on
`ValueError`/`TypeError`.  We model string-valued discharges; the model
of `int(...)` follows CPython semantics for base-10 string conversion:
optional surrounding whitespace, optional sign, then digits in which
single underscores may appear between digits. -/

def isPySpace (c : Char) : Bool :=
  c == ' ' || c == '\t' || c == '\n' || c == '\r' || c == '\x0b' || c == '\x0c'

def pyStrip (cs : List Char) : List Char :=
  ((cs.dropWhile isPySpace).reverse.dropWhile isPySpace).reverse

/-- Tail of a valid Python integer literal body: digits, where an
underscore must be followed by a digit (so no trailing or doubled
underscores). -/
def validIntTail : List Char → Bool
  | [] => true
  | '_' :: c :: rest => c.isDigit && validIntTail rest
  | ['_'] => false
  | c :: rest => c.isDigit && validIntTail rest

def digitsValue (cs : List Char) : Nat :=
  cs.foldl (fun acc c => 10 * acc + (c.toNat - 48)) 0

/-- Digit part of Python `int(string)`: nonempty, starts with a digit,
single underscores allowed between digits; underscores are ignored for
the value. -/
def parsePyDigits : List Char → Option Nat
  | [] => none
  | c :: rest =>
    if c.isDigit && validIntTail rest then
      some (digitsValue ((c :: rest).filter (fun d => d != '_')))
    else none

/-- Model of Python `int(s)` for a base-10 string argument. -/
def pyIntOfString (s : String) : Option Int :=
  match pyStrip s.toList with
  | '+' :: rest => (parsePyDigits rest).map (fun n => (n : Int))
  | '-' :: rest => (parsePyDigits rest).map (fun n => -(n : Int))
  | rest => (parsePyDigits rest).map (fun n => (n : Int))

/-- Insert a comma after every three digits, on a least-significant-first
digit list. -/
def insertCommasRev : List Char → List Char
  | d1 :: d2 :: d3 :: d4 :: rest => d1 :: d2 :: d3 :: ',' :: insertCommasRev (d4 :: rest)
  | l => l

def commaGroupNat (n : Nat) : String :=
  String.mk ((insertCommasRev (Nat.toDigits 10 n).reverse).reverse)

/-- Model of the Python format `f"{n:,}"` for an int: thousands
separators every three digits, minus sign in front for negatives. -/
def commaFormat (n : Int) : String :=
  if n < 0 then "-" ++ commaGroupNat n.natAbs else commaGroupNat n.natAbs

/-- Python `s.replace(',', '')`: removes every comma. -/
def stripCommas (s : String) : String :=
  String.mk (s.toList.filter (fun c => c != ','))

/-- `format_flow` (lines 165-172). -/
def format_flow (discharge : String) : String :=
  match pyIntOfString (stripCommas discharge) with
  | some n => commaFormat n ++ " cusecs"
  | none => discharge ++ " cusecs"

/-! ## Canvas height (`calculate_required_height`, lines 174-223)

`int(FONT_BODY_SIZE * 1.35 * 2)` evaluates to 91 in Python (the float
product is 91.8000000000000061...), modelled exactly by the rational
computation `34 * 135 * 2 / 100` in `Nat`. -/

def calculate_required_height (num_stations : Nat) : Nat :=
  let content_start := HEADER_H + SEP_H + 26
  let status_height := FONT_BODY_SIZE * 135 * 2 / 100
  let per_station_height := FONT_H1_SIZE + TITLE_GAP + status_height + ROW_GAP
  let num_group_gaps := 3
  let total_content_height := num_stations * per_station_height + num_group_gaps * GROUP_GAP
  let safety_padding := 100
  let required_height := content_start + total_content_height + 32 + safety_padding
  max 1920 required_height

/-! ## Status line composition and wrapping (`draw_status`, lines 382-425)

`draw_status` paints styled runs; we model the painted output as a
list of lines, each a list of styled runs, and the returned bottom `y`
separately.  `lh = int(FONT_BODY.size * 1.35)` is 45. -/

def LH : Nat := FONT_BODY_SIZE * 135 / 100

inductive FontKind where
  | body
  | bodyBold
deriving DecidableEq

structure StyledRun where
  text : String
  font : FontKind
  color : String
deriving DecidableEq

/-- The composed status sentence
`f"Status – {sev} Flood ({flow}) and {trend} Trend"` (line 384). -/
def statusText (sev flow trend : String) : String :=
  "Status – " ++ sev ++ " Flood (" ++ flow ++ ") and " ++ trend ++ " Trend"

/-- Python `sev.upper().replace(" ", "_")` (lines 396, 409): uppercase
does not touch spaces, so the two steps fuse into one character map. -/
def pyUpperUnderscore (s : String) : String :=
  String.mk (s.toList.map (fun c => if c == ' ' then '_' else c.toUpper))

def severityRunColor (sev : String) : String :=
  (dictGet SEVERITY_COLORS (pyUpperUnderscore sev)).getD "#0F8A26"

def trendRunColor (trend : String) : String :=
  (dictGet TREND_COLORS trend).getD "#008000"

/-- The seven styled runs of the single-line layout (lines 395-401). -/
def singleLineRuns (sev flow trend : String) : List StyledRun :=
  [⟨"Status – ", .bodyBold, "#111111"⟩,
   ⟨sev ++ " Flood", .bodyBold, severityRunColor sev⟩,
   ⟨" (", .body, "#111111"⟩,
   ⟨flow, .bodyBold, "#111111"⟩,
   ⟨") and ", .body, "#111111"⟩,
   ⟨trend, .bodyBold, trendRunColor trend⟩,
   ⟨" Trend", .body, "#111111"⟩]

/-- First line of the two-line layout (lines 406-415). -/
def wrapLineOne (sev flow : String) : List StyledRun :=
  [⟨"Status – ", .bodyBold, "#111111"⟩,
   ⟨sev ++ " Flood", .bodyBold, severityRunColor sev⟩,
   ⟨" (", .body, "#111111"⟩,
   ⟨flow, .bodyBold, "#111111"⟩,
   ⟨")", .body, "#111111"⟩]

/-- Second line of the two-line layout (lines 417-423). -/
def wrapLineTwo (trend : String) : List StyledRun :=
  [⟨"and ", .body, "#111111"⟩,
   ⟨trend, .bodyBold, trendRunColor trend⟩,
   ⟨" Trend", .body, "#111111"⟩]

/-- Lines painted by `draw_status`, given the body-font width measure.
The wrap decision (line 387) measures the full sentence in the body
font against `maxw`. -/
def draw_status_lines (width : String → Nat) (maxw : Nat)
    (sev flow trend : String) : List (List StyledRun) :=
  if width (statusText sev flow trend) ≤ maxw then
    [singleLineRuns sev flow trend]
  else
    [wrapLineOne sev flow, wrapLineTwo trend]

/-- Bottom `y` returned by `draw_status`: `y + lh` for one line
(line 403), `y + 2 * lh` for two (line 425). -/
def draw_status_bottom (width : String → Nat) (maxw : Nat)
    (sev flow trend : String) (y : Nat) : Nat :=
  y + LH * (draw_status_lines width maxw sev flow trend).length

/-- Concatenated text of one painted line. -/
def lineText (l : List StyledRun) : String :=
  String.join (l.map StyledRun.text)

/-! ## Per-row vertical layout (`generate_image` body loop, lines 497-512) -/

structure RowData where
  title : String
  severity : String
  flow : String
  trend : String
  short_name : String
  status : String
deriving DecidableEq

structure RowLayout where
  rowTopY : Nat
  statusTopY : Nat
  statusBottomY : Nat
  dotCenterY : Nat
deriving DecidableEq

/-- `y = HEADER_H + SEP_H + 26` (line 497). -/
def bodyStartY : Nat := HEADER_H + SEP_H + 26

/-- The body loop of `generate_image`: per row, the title is painted at
`y`, `y` advances by `FONT_H1.size + TITLE_GAP`, the status block is
painted from there down to `bottom`, the dot centre is
`(y + bottom) // 2` with the advanced `y`, and the next row starts at
`bottom + ROW_GAP` plus `GROUP_GAP` when the index is 3, 6 or 9.
Returns the per-row layout records and the final `y`. -/
def layoutRows (width : String → Nat) :
    List RowData → Nat → Nat → List RowLayout × Nat
  | [], _, y => ([], y)
  | r :: rs, i, y =>
    let statusTop := y + FONT_H1_SIZE + TITLE_GAP
    let bottom := draw_status_bottom width TEXT_W r.severity r.flow r.trend statusTop
    let mid := (statusTop + bottom) / 2
    let yNext := bottom + ROW_GAP + (if i = 3 ∨ i = 6 ∨ i = 9 then GROUP_GAP else 0)
    let rest := layoutRows width rs (i + 1) yNext
    (⟨y, statusTop, bottom, mid⟩ :: rest.1, rest.2)

def renderLayout (width : String → Nat) (rows : List RowData) :
    List RowLayout × Nat :=
  layoutRows width rows 0 bodyStartY

/-- The `dot_ys` list collected by the body loop (lines 498, 506). -/
def dotCenters (width : String → Nat) (rows : List RowData) : List Nat :=
  (renderLayout width rows).1.map RowLayout.dotCenterY

/-! ## Connector segments (`generate_image`, lines 524-535) -/

structure Segment where
  a : Nat
  b : Nat
  x : Nat
  yTop : Int
  yBot : Int
deriving DecidableEq

/-- `zip(group, group[1:])` (line 531). -/
def consecutivePairs : List Nat → List (Nat × Nat)
  | a :: b :: rest => (a, b) :: consecutivePairs (b :: rest)
  | _ => []

/-- One connector: drawn only under the safety check
`a < len(dot_ys) and b < len(dot_ys)` (line 532), as a vertical line
from `dot_ys[a] + DOT_R` down to `dot_ys[b] - DOT_R` at `x = TIMEX`
(lines 533-534). -/
def segmentFor (dotYs : List Nat) (p : Nat × Nat) : Option Segment :=
  if p.1 < dotYs.length ∧ p.2 < dotYs.length then
    some ⟨p.1, p.2, TIMEX,
      (dotYs.getD p.1 0 : Int) + (DOT_R : Int),
      (dotYs.getD p.2 0 : Int) - (DOT_R : Int)⟩
  else none

/-- All connector segments drawn for the given groups (lines 527-535). -/
def connectors (groups : List (List Nat)) (dotYs : List Nat) : List Segment :=
  groups.flatMap (fun g => (consecutivePairs g).filterMap (segmentFor dotYs))

/-! ## Station configuration (`STATION_ORDER`, `GROUPS`, lines 77-104) -/

structure StationInfo where
  key : String
  api_name : String
  river : String
  headwork : String
  short_name : String
deriving DecidableEq

def STATION_ORDER : List StationInfo :=
  [⟨"Jassar", "Jassar", "Ravi", "Jassar", "Jassar"⟩,
   ⟨"Shahdara", "Shahdara", "Ravi", "Shahdara", "Shahdara"⟩,
   ⟨"Balloki", "Balloki", "Ravi", "Balloki", "Balloki"⟩,
   ⟨"Sidhnai", "Sidhnai", "Ravi", "Sidhnai", "Sidhnai"⟩,
   ⟨"Marala", "Marala", "Chenab", "Marala", "Marala"⟩,
   ⟨"Trimmu", "Trimmu", "Chenab", "Trimmu", "Trimmu"⟩,
   ⟨"Panjnad", "Panjnad", "Chenab", "Panjnad", "Panjnad"⟩,
   ⟨"Ganda Singh Wala", "Ganda Singh Wala", "Sutlej", "Ganda Singh Wala", "G. S. Wala"⟩,
   ⟨"Sulemanki", "Sulemanki", "Sutlej", "Sulemanki", "Sulemanki"⟩,
   ⟨"Islam", "Islam", "Sutlej", "Islam", "Islam"⟩,
   ⟨"Guddu", "Guddu", "Indus", "Guddu", "Guddu"⟩]

def GROUPS : List (List Nat) := [[0, 1, 2, 3], [4, 5, 6], [7, 8, 9]]

/-! ## API payload model and station resolution (lines 158-163, 292-323)

A station record carries optional fields; `none` models an absent key
(the code reads them with `dict.get` and a default). -/

structure ApiStation where
  name : Option String
  status : Option String
  outflow_discharge : Option String
  inflow_discharge : Option String
  outflow_trend : Option String
  inflow_trend : Option String
deriving DecidableEq

structure ApiData where
  latest_reading_time : Option String
  data : List ApiStation
deriving DecidableEq

/-- `find_station_data` (lines 158-163): first record whose `name`
equals the requested name, else `None`. -/
def find_station_data (api : ApiData) (station_name : String) : Option ApiStation :=
  api.data.find? (fun st => st.name == some station_name)

/-- `SEVERITY_DISPLAY.get(status, 'Normal')` (line 300). -/
def severityLabel (status : String) : String :=
  (dictGet SEVERITY_DISPLAY status).getD "Normal"

/-- One row of `create_dashboard`-built data (lines 292-323). -/
def buildRow (api : ApiData) (info : StationInfo) : RowData :=
  let title := info.river ++ " at " ++ info.headwork
  match find_station_data api info.api_name with
  | some st =>
      let status := st.status.getD "NORMAL"
      { title := title
        severity := severityLabel status
        flow := format_flow (st.outflow_discharge.getD (st.inflow_discharge.getD "0"))
        trend := st.outflow_trend.getD (st.inflow_trend.getD "Steady")
        short_name := info.short_name
        status := status }
  | none =>
      { title := title
        severity := "Normal"
        flow := "0 cusecs"
        trend := "Steady"
        short_name := info.short_name
        status := "NORMAL" }

/-- The full row list built by `create_dashboard`. -/
def dashboardRows (api : ApiData) : List RowData :=
  STATION_ORDER.map (buildRow api)

/-! ## Timestamp parsing and output filename (lines 237-265)

The code strips `" PST"`/`" PKT"` and parses with
`strptime(dt_part, "%d-%b-%Y %H:%M")`.  The model follows CPython
`_strptime`: `%d` is one or two digits valued 1-31 and valid for the
month, `%b` a case-insensitive three-letter month abbreviation, `%Y`
exactly four digits, whitespace matches a nonempty whitespace run,
`%H` one or two digits valued 0-23, `%M` one or two digits valued
0-59, and the whole string must be consumed. -/

def removePST : List Char → List Char
  | ' ' :: 'P' :: 'S' :: 'T' :: rest => removePST rest
  | c :: rest => c :: removePST rest
  | [] => []

def removePKT : List Char → List Char
  | ' ' :: 'P' :: 'K' :: 'T' :: rest => removePKT rest
  | c :: rest => c :: removePKT rest
  | [] => []

/-- Greedily take at most `n` leading digits. -/
def takeDigitsUpTo : Nat → List Char → List Char × List Char
  | 0, cs => ([], cs)
  | _ + 1, [] => ([], [])
  | n + 1, c :: cs =>
    if c.isDigit then
      let r := takeDigitsUpTo n cs
      (c :: r.1, r.2)
    else ([], c :: cs)

def monthFromAbbrev : String → Option Nat
  | "jan" => some 1
  | "feb" => some 2
  | "mar" => some 3
  | "apr" => some 4
  | "may" => some 5
  | "jun" => some 6
  | "jul" => some 7
  | "aug" => some 8
  | "sep" => some 9
  | "oct" => some 10
  | "nov" => some 11
  | "dec" => some 12
  | _ => none

def matchMonth : List Char → Option (Nat × List Char)
  | c1 :: c2 :: c3 :: rest =>
    (monthFromAbbrev (String.mk [c1.toLower, c2.toLower, c3.toLower])).map
      (fun m => (m, rest))
  | _ => none

def isLeapYear (y : Nat) : Bool :=
  (y % 4 == 0 && y % 100 != 0) || y % 400 == 0

def daysInMonth (y m : Nat) : Nat :=
  if m = 2 then (if isLeapYear y then 29 else 28)
  else if m = 4 ∨ m = 6 ∨ m = 9 ∨ m = 11 then 30
  else 31

structure DateTimeVal where
  year : Nat
  month : Nat
  day : Nat
  hour : Nat
  minute : Nat
deriving DecidableEq

/-- Model of `datetime.strptime(ts.replace(" PST","").replace(" PKT",""),
"%d-%b-%Y %H:%M")` (lines 239-240). -/
def parseTimestamp (s : String) : Option DateTimeVal :=
  let cs := removePKT (removePST s.toList)
  let dpair := takeDigitsUpTo 2 cs
  if dpair.1.isEmpty then none else
  match dpair.2 with
  | '-' :: cs2 =>
    match matchMonth cs2 with
    | some (m, cs3) =>
      match cs3 with
      | '-' :: cs4 =>
        let ypair := takeDigitsUpTo 4 cs4
        if ypair.1.length ≠ 4 then none else
        match ypair.2 with
        | c5 :: cs5 =>
          if isPySpace c5 then
            let cs6 := cs5.dropWhile isPySpace
            let hpair := takeDigitsUpTo 2 cs6
            if hpair.1.isEmpty then none else
            match hpair.2 with
            | ':' :: cs7 =>
              let mpair := takeDigitsUpTo 2 cs7
              if mpair.1.isEmpty then none else
              if mpair.2.isEmpty then
                let day := digitsValue dpair.1
                let year := digitsValue ypair.1
                let hour := digitsValue hpair.1
                let minute := digitsValue mpair.1
                if 1 ≤ year ∧ 1 ≤ day ∧ day ≤ daysInMonth year m ∧
                    hour ≤ 23 ∧ minute ≤ 59 then
                  some ⟨year, m, day, hour, minute⟩
                else none
              else none
            | _ => none
          else none
        | [] => none
      | _ => none
    | none => none
  | _ => none

/-- The 12-hour value from the if-chain of lines 245-257. -/
def hour12 (hour24 : Nat) : Nat :=
  if hour24 = 0 then 12
  else if hour24 < 12 then hour24
  else if hour24 = 12 then 12
  else hour24 - 12

/-- The AM/PM marker from the same if-chain. -/
def ampmOf (hour24 : Nat) : String :=
  if hour24 = 0 then "AM"
  else if hour24 < 12 then "AM"
  else "PM"

/-- Python `f"{m:02d}"` for a minute value. -/
def pad2 (n : Nat) : String :=
  if n < 10 then "0" ++ toString n else toString n

/-- `strftime("%b")` month abbreviation. -/
def monthName (m : Nat) : String :=
  (["Jan", "Feb", "Mar", "Apr", "May", "Jun", "Jul", "Aug", "Sep",
    "Oct", "Nov", "Dec"]).getD (m - 1) ""

/-- The `time_part` of lines 259-263. -/
def filenameTimePart (hour24 minute : Nat) : String :=
  if minute = 0 then
    toString (hour12 hour24) ++ " " ++ ampmOf hour24
  else
    toString (hour12 hour24) ++ "-" ++ pad2 minute ++ " " ++ ampmOf hour24

/-- `outfile = f"{day} {month} {time_part}.png"` (line 265), with
`day = str(dt.day)` carrying no leading zero. -/
def mkOutfile (dt : DateTimeVal) : String :=
  toString dt.day ++ " " ++ monthName dt.month ++ " " ++
    filenameTimePart dt.hour dt.minute ++ ".png"

/-- Filename for a parseable report timestamp.  On a parse failure the
code substitutes the current wall-clock time (lines 267-288), which has
no shallow embedding; the claims below only concern the parseable case. -/
def outfileOfTimestamp (latest_time : String) : Option String :=
  (parseTimestamp latest_time).map mkOutfile

/-! ## Change-detection gate and run cycle (lines 130-143, 546-568) -/

structure SysState where
  marker : Option String
  images : List String
deriving DecidableEq

/-- Python `s.strip()` on the marker file contents. -/
def stripString (s : String) : String :=
  String.mk (pyStrip s.toList)

/-- `get_last_timestamp` (lines 117-123): reads the marker file —
which holds exactly what `save_timestamp` last wrote, verbatim — and
returns its contents **stripped of surrounding whitespace**; `None`
when the file is absent. -/
def get_last_timestamp (st : SysState) : Option String :=
  st.marker.map stripString

/-- `should_generate_dashboard` (lines 130-143): reads
`api_data.get('latest_reading_time', '')` and the persisted marker via
`get_last_timestamp` (stripped on read), and proceeds exactly when
`current_timestamp != last_timestamp`. -/
def should_generate_dashboard (api : ApiData) (st : SysState) :
    Bool × String :=
  let current_timestamp := api.latest_reading_time.getD ""
  let last_timestamp := get_last_timestamp st
  (some current_timestamp != last_timestamp, current_timestamp)

inductive RunEvent where
  | renderImage : String → RunEvent
  | saveTimestamp : String → RunEvent
deriving DecidableEq

/-- The output filename the run would produce.  For an unparseable
timestamp the code falls back to wall-clock time for the name only; the
fallback name is irrelevant to the gating claims. -/
def dashboardOutfile (api : ApiData) : String :=
  (outfileOfTimestamp (api.latest_reading_time.getD "")).getD "fallback.png"

/-- One run of `main` (lines 546-568): fetch is abstracted into the
`api` argument; when the gate opens, the image is saved first
(line 559) and the timestamp marker is overwritten — verbatim, with no
stripping on write (lines 125-128) — afterwards (line 562); otherwise
the run is a no-op.  Returns the new persistent state and the ordered
file-writing events of the run. -/
def runOnce (api : ApiData) (st : SysState) : SysState × List RunEvent :=
  let gate := should_generate_dashboard api st
  if gate.1 then
    let outfile := dashboardOutfile api
    ({ marker := some gate.2, images := st.images ++ [outfile] },
     [RunEvent.renderImage outfile, RunEvent.saveTimestamp gate.2])
  else
    (st, [])

/-! ## Helper lemmas -/

/-- The status block painted by `draw_status` is one or two lines of
`lh = 45` pixels: the returned bottom is between `y + 45` and `y + 90`. -/
lemma draw_status_bottom_bounds (width : String → Nat) (maxw : Nat)
    (sev flow trend : String) (y : Nat) :
    y + 45 ≤ draw_status_bottom width maxw sev flow trend y ∧
      draw_status_bottom width maxw sev flow trend y ≤ y + 90 := by
  unfold draw_status_bottom draw_status_lines LH FONT_BODY_SIZE
  split <;> simp

/-- Total extra `GROUP_GAP` pixels the body loop can still insert when
the running index has reached `i`: one gap for each of the designated
indices 3, 6, 9 not yet passed. -/
def gapsFrom (i : Nat) : Nat :=
  (if i ≤ 3 then 24 else 0) + (if i ≤ 6 then 24 else 0) + (if i ≤ 9 then 24 else 0)

/-- Upper bound on the final `y` of the body loop: each row consumes at
most `48 + 12 + 90 + 20 = 170` pixels plus its possible group gap. -/
lemma layoutRows_final_le (width : String → Nat) :
    ∀ (rows : List RowData) (i y : Nat),
      (layoutRows width rows i y).2 ≤ y + rows.length * 170 + gapsFrom i := by
  intro rows
  induction rows with
  | nil =>
    intro i y
    have h : 0 ≤ gapsFrom i := Nat.zero_le _
    simp [layoutRows]
  | cons r rs ih =>
    intro i y
    simp only [layoutRows, List.length_cons]
    refine le_trans (ih (i + 1) _) ?_
    have hb := draw_status_bottom_bounds width TEXT_W r.severity r.flow r.trend
      (y + FONT_H1_SIZE + TITLE_GAP)
    simp only [FONT_H1_SIZE, TITLE_GAP, ROW_GAP, GROUP_GAP] at *
    unfold gapsFrom
    split_ifs <;> omega

/-- CLAIM C3: the computed canvas height is the maximum of the minimum
constant 1920 and header + separator + top margin + `n` times (title
height + title gap + two-wrapped-lines status-block height + row gap)
plus the three group-boundary gaps, the bottom-bar height and the
safety padding; and because the status term always assumes the
two-line worst case, the height never underestimates the space the
body loop actually uses, whatever the wrap outcomes are. -/
theorem height_formula :
    (∀ n : Nat, calculate_required_height n =
        max 1920 (HEADER_H + SEP_H + 26 +
          n * (FONT_H1_SIZE + TITLE_GAP + FONT_BODY_SIZE * 135 * 2 / 100 + ROW_GAP) +
          3 * GROUP_GAP + 32 + 100))
    ∧ (∀ (width : String → Nat) (rows : List RowData),
        (renderLayout width rows).2 + 32 ≤ calculate_required_height rows.length) := by
  constructor
  · intro n
    simp only [calculate_required_height, HEADER_H, SEP_H, FONT_H1_SIZE, TITLE_GAP,
      FONT_BODY_SIZE, ROW_GAP, GROUP_GAP]
    omega
  · intro width rows
    have h := layoutRows_final_le width rows 0 bodyStartY
    simp only [renderLayout, calculate_required_height, bodyStartY, gapsFrom,
      HEADER_H, SEP_H, FONT_H1_SIZE, TITLE_GAP, ROW_GAP, GROUP_GAP,
      FONT_BODY_SIZE] at *
    norm_num at h ⊢
    omega

/-- Witness for `height_formula` at a concrete row list and width. -/
theorem height_formula_witness :
    calculate_required_height 11 =
      max 1920 (HEADER_H + SEP_H + 26 +
        11 * (FONT_H1_SIZE + TITLE_GAP + FONT_BODY_SIZE * 135 * 2 / 100 + ROW_GAP) +
        3 * GROUP_GAP + 32 + 100) ∧
    (renderLayout (fun _ => 0)
        [⟨"Ravi at Jassar", "Normal", "0 cusecs", "Steady", "Jassar", "NORMAL"⟩]).2 + 32 ≤
      calculate_required_height 1 :=
  ⟨height_formula.1 11,
   height_formula.2 (fun _ => 0)
     [⟨"Ravi at Jassar", "Normal", "0 cusecs", "Steady", "Jassar", "NORMAL"⟩]⟩

/-- CLAIM C5: when the discharge string, commas stripped, parses as a
Python integer, `format_flow` renders the parsed integer with thousands
separators and the literal suffix; otherwise it returns the original
value with the suffix appended.  Both branches are total, so the
function never raises. -/
theorem format_flow_behaviour :
    (∀ f n, pyIntOfString (stripCommas f) = some n →
        format_flow f = commaFormat n ++ " cusecs")
    ∧ (∀ f, pyIntOfString (stripCommas f) = none →
        format_flow f = f ++ " cusecs") := by
  constructor
  · intro f n h
    simp [format_flow, h]
  · intro f h
    simp [format_flow, h]

/-- Witness for `format_flow_behaviour`: an integer-like value with a
separator already present, and a non-parseable value. -/
theorem format_flow_behaviour_witness :
    format_flow "12,345" = commaFormat 12345 ++ " cusecs" ∧
      format_flow "4.5" = "4.5" ++ " cusecs" :=
  ⟨format_flow_behaviour.1 "12,345" 12345 (by decide),
   format_flow_behaviour.2 "4.5" (by decide)⟩

/-- CANONICAL-SEVERITY table, written from the words of the spec (the
refinement target for claim C4): the underscore and space spellings and
the `V_HIGH` alias collapse onto the canonical severities `NORMAL`,
`LOW`, `MEDIUM`, `HIGH`, `VERY_HIGH`, `EX_HIGH`; any other spelling has
no canonical mapping. -/
def CANONICAL_SEVERITY_SPEC : List (String × String) :=
  [("NORMAL", "NORMAL"), ("LOW", "LOW"), ("MEDIUM", "MEDIUM"),
   ("HIGH", "HIGH"), ("VERY_HIGH", "VERY_HIGH"), ("V_HIGH", "VERY_HIGH"),
   ("VERY HIGH", "VERY_HIGH"), ("EX_HIGH", "EX_HIGH"),
   ("EXCEPTIONALLY_HIGH", "EX_HIGH"), ("EXCEPTIONALLY HIGH", "EX_HIGH")]

/-- Spec-side canonicalization of a severity-code spelling. -/
def canonicalSeveritySpec (s : String) : Option String :=
  dictGet CANONICAL_SEVERITY_SPEC s

/-- CLAIM C4: every spelling with a defined canonical mapping gets the
colour of its canonical severity, and every unmapped spelling gets the
displayed label `"Normal"`. -/
theorem severity_color_canonical :
    (∀ s c, canonicalSeveritySpec s = some c →
        dictGet SEVERITY_COLORS s = dictGet SEVERITY_COLORS c)
    ∧ (∀ s, dictGet SEVERITY_DISPLAY s = none → severityLabel s = "Normal") := by
  constructor
  · intro s c h
    simp only [canonicalSeveritySpec, CANONICAL_SEVERITY_SPEC, dictGet] at h
    split_ifs at h <;> simp_all <;> subst_vars <;> rfl
  · intro s h
    simp [severityLabel, h]

/-- Witness for `severity_color_canonical`: the `V_HIGH` alias and an
unmapped spelling. -/
theorem severity_color_canonical_witness :
    dictGet SEVERITY_COLORS "V_HIGH" = dictGet SEVERITY_COLORS "VERY_HIGH" ∧
      severityLabel "UNMAPPED" = "Normal" :=
  ⟨severity_color_canonical.1 "V_HIGH" "VERY_HIGH" (by decide),
   severity_color_canonical.2 "UNMAPPED" (by decide)⟩

/-- Structural facts holding for every row record the body loop
produces, whatever the start index and start `y`: the status block
starts `FONT_H1.size + TITLE_GAP` below the title, and the dot centre
is the floor midpoint of the status block. -/
lemma layoutRows_mem_spec (width : String → Nat) :
    ∀ (rows : List RowData) (i y : Nat) (e : RowLayout),
      e ∈ (layoutRows width rows i y).1 →
      e.statusTopY = e.rowTopY + FONT_H1_SIZE + TITLE_GAP ∧
        e.dotCenterY = (e.statusTopY + e.statusBottomY) / 2 := by
  intro rows
  induction rows with
  | nil =>
    intro i y e h
    simp [layoutRows] at h
  | cons r rs ih =>
    intro i y e h
    simp only [layoutRows, List.mem_cons] at h
    rcases h with h | h
    · subst h
      exact ⟨rfl, rfl⟩
    · exact ih (i + 1) _ e h

/-- AMENDED CLAIM C1: for every rendered row, the indicator dot centre
is the integer midpoint `(status_top_y + status_bottom_y) // 2` of the
status block, where `status_top_y` sits `FONT_H1.size + TITLE_GAP`
below the `y` at which the row title is painted; this holds for every
width function, hence independently of whether the status wrapped. -/
theorem dot_center_midpoint (width : String → Nat) (rows : List RowData)
    (e : RowLayout) (h : e ∈ (renderLayout width rows).1) :
    e.statusTopY = e.rowTopY + FONT_H1_SIZE + TITLE_GAP ∧
      e.dotCenterY = (e.statusTopY + e.statusBottomY) / 2 :=
  layoutRows_mem_spec width rows 0 bodyStartY e h

def widthZero : String → Nat := fun _ => 0

def exampleRow : RowData :=
  ⟨"Ravi at Jassar", "Normal", "0 cusecs", "Steady", "Jassar", "NORMAL"⟩

/-- COUNTEREXAMPLE to claim C1 as stated: for the first rendered row
(title painted at `y = 289`, status bottom `394`), the dot centre is
`371`, but the claimed value `(row_top_y + status_bottom_y) // 2` is
`341`. -/
theorem dot_center_claim_counterexample :
    (renderLayout widthZero [exampleRow]).1.map RowLayout.rowTopY = [289] ∧
      (renderLayout widthZero [exampleRow]).1.map RowLayout.statusBottomY = [394] ∧
      (renderLayout widthZero [exampleRow]).1.map RowLayout.dotCenterY = [371] ∧
      (371 : Nat) ≠ (289 + 394) / 2 := by
  decide

/-- Witness for `dot_center_midpoint` on a concrete layout row. -/
theorem dot_center_midpoint_witness :
    (RowLayout.mk 289 349 394 371).statusTopY =
        (RowLayout.mk 289 349 394 371).rowTopY + FONT_H1_SIZE + TITLE_GAP ∧
      (RowLayout.mk 289 349 394 371).dotCenterY =
        ((RowLayout.mk 289 349 394 371).statusTopY +
          (RowLayout.mk 289 349 394 371).statusBottomY) / 2 :=
  dot_center_midpoint widthZero [exampleRow] ⟨289, 349, 394, 371⟩ (by decide)

/-- CLAIM C2: if the composed status sentence fits in the column the
status is one line of the seven styled runs whose concatenation is the
sentence itself; otherwise it is exactly the fixed two-line split whose
first line ends with the closing parenthesis after the flow and whose
second line is `"and {trend} Trend"` — the same split point for every
severity, flow, trend, width function and column width. -/
theorem status_wrap_deterministic (width : String → Nat) (maxw : Nat)
    (sev flow trend : String) :
    (width (statusText sev flow trend) ≤ maxw →
      draw_status_lines width maxw sev flow trend = [singleLineRuns sev flow trend] ∧
        (singleLineRuns sev flow trend).length = 7 ∧
        lineText (singleLineRuns sev flow trend) = statusText sev flow trend)
    ∧ (maxw < width (statusText sev flow trend) →
      draw_status_lines width maxw sev flow trend =
          [wrapLineOne sev flow, wrapLineTwo trend] ∧
        lineText (wrapLineOne sev flow) =
          "Status – " ++ sev ++ " Flood (" ++ flow ++ ")" ∧
        lineText (wrapLineTwo trend) = "and " ++ trend ++ " Trend") := by
  constructor
  · intro h
    refine ⟨by simp [draw_status_lines, h], by simp [singleLineRuns], ?_⟩
    apply String.ext
    simp [lineText, String.join, singleLineRuns, statusText]
  · intro h
    have h2 : ¬ width (statusText sev flow trend) ≤ maxw := by omega
    refine ⟨by simp [draw_status_lines, h2], ?_, ?_⟩
    · apply String.ext
      simp [lineText, String.join, wrapLineOne]
    · apply String.ext
      simp [lineText, String.join, wrapLineTwo]

def lenWidth : String → Nat := String.length

/-- Witness for `status_wrap_deterministic`: the same row content once
with a wide column (fits) and once with a narrow column (wraps). -/
theorem status_wrap_deterministic_witness :
    (draw_status_lines lenWidth 10000 "Normal" "0 cusecs" "Steady" =
        [singleLineRuns "Normal" "0 cusecs" "Steady"] ∧
      (singleLineRuns "Normal" "0 cusecs" "Steady").length = 7 ∧
      lineText (singleLineRuns "Normal" "0 cusecs" "Steady") =
        statusText "Normal" "0 cusecs" "Steady") ∧
    (draw_status_lines lenWidth 10 "Normal" "0 cusecs" "Steady" =
        [wrapLineOne "Normal" "0 cusecs", wrapLineTwo "Steady"] ∧
      lineText (wrapLineOne "Normal" "0 cusecs") =
        "Status – " ++ "Normal" ++ " Flood (" ++ "0 cusecs" ++ ")" ∧
      lineText (wrapLineTwo "Steady") = "and " ++ "Steady" ++ " Trend") :=
  ⟨(status_wrap_deterministic lenWidth 10000 "Normal" "0 cusecs" "Steady").1 (by decide),
   (status_wrap_deterministic lenWidth 10 "Normal" "0 cusecs" "Steady").2 (by decide)⟩

/-- Membership in `zip(group, group[1:])`: exactly the pairs of
adjacent elements of the group list. -/
lemma mem_consecutivePairs :
    ∀ (l : List Nat) (a b : Nat),
      (a, b) ∈ consecutivePairs l ↔ ∃ u v, l = u ++ a :: b :: v := by
  intro l
  induction l with
  | nil =>
    intro a b
    constructor
    · intro h
      simp [consecutivePairs] at h
    · rintro ⟨u, v, h⟩
      have := congrArg List.length h
      simp at this
      omega
  | cons x xs ih =>
    intro a b
    cases xs with
    | nil =>
      constructor
      · intro h
        simp [consecutivePairs] at h
      · rintro ⟨u, v, h⟩
        have := congrArg List.length h
        simp [List.length_append] at this
        omega
    | cons y ys =>
      constructor
      · intro h
        simp only [consecutivePairs, List.mem_cons] at h
        rcases h with h | h
        · have ha : a = x := congrArg Prod.fst h
          have hb : b = y := congrArg Prod.snd h
          exact ⟨[], ys, by simp [← ha, ← hb]⟩
        · obtain ⟨u, v, huv⟩ := (ih a b).mp h
          exact ⟨x :: u, v, by simp [huv]⟩
      · rintro ⟨u, v, h⟩
        cases u with
        | nil =>
          simp only [List.nil_append, List.cons.injEq] at h
          obtain ⟨hx, hy, hv⟩ := h
          simp only [consecutivePairs, List.mem_cons]
          left
          simp [hx, hy]
        | cons u0 u' =>
          simp only [List.cons_append, List.cons.injEq] at h
          simp only [consecutivePairs, List.mem_cons]
          right
          exact (ih a b).mpr ⟨u', v, h.2⟩

/-- Every dot centre produced from start position `(i, y)` lies at or
below `y + 60`. -/
lemma layoutRows_mid_lb (width : String → Nat) :
    ∀ (rows : List RowData) (i y : Nat) (e : RowLayout),
      e ∈ (layoutRows width rows i y).1 → y + 60 ≤ e.dotCenterY := by
  intro rows
  induction rows with
  | nil =>
    intro i y e h
    simp [layoutRows] at h
  | cons r rs ih =>
    intro i y e h
    simp only [layoutRows, List.mem_cons] at h
    have hb := draw_status_bottom_bounds width TEXT_W r.severity r.flow r.trend
      (y + FONT_H1_SIZE + TITLE_GAP)
    rcases h with h | h
    · subst h
      simp only [FONT_H1_SIZE, TITLE_GAP] at *
      omega
    · have := ih (i + 1) _ e h
      simp only [FONT_H1_SIZE, TITLE_GAP] at *
      split_ifs at this <;> omega

/-- Successive dot centres are at least 80 pixels apart. -/
lemma layoutRows_mids_pairwise (width : String → Nat) :
    ∀ (rows : List RowData) (i y : Nat),
      List.Pairwise (fun p q => p + 80 ≤ q)
        ((layoutRows width rows i y).1.map RowLayout.dotCenterY) := by
  intro rows
  induction rows with
  | nil =>
    intro i y
    simp [layoutRows]
  | cons r rs ih =>
    intro i y
    simp only [layoutRows, List.map_cons]
    refine List.Pairwise.cons ?_ (ih (i + 1) _)
    intro q hq
    simp only [List.mem_map] at hq
    obtain ⟨e, he, hqe⟩ := hq
    have hlb := layoutRows_mid_lb width rs (i + 1) _ e he
    have hb := draw_status_bottom_bounds width TEXT_W r.severity r.flow r.trend
      (y + FONT_H1_SIZE + TITLE_GAP)
    simp only [FONT_H1_SIZE, TITLE_GAP] at *
    split_ifs at hlb <;> omega

/-- CLAIM C7: a connector segment is drawn exactly for the adjacent
pairs of each group whose indices both index a rendered row, and for no
other pair; it runs at `x = TIMEX` from the bottom edge of the upper
dot to the top edge of the lower dot.  On the grouping
`[[0,1,2],[3,4]]` the drawn pairs are exactly `(0,1),(1,2),(3,4)` —
none joins 2 to 3.  For rows laid out by the body loop the segment of a
pair `a < b` stays between the two circles, never overlapping them. -/
theorem connector_segments :
    (∀ (groups : List (List Nat)) (dotYs : List Nat) (s : Segment),
      s ∈ connectors groups dotYs ↔
        ((∃ g ∈ groups, ∃ u v, g = u ++ s.a :: s.b :: v) ∧
          s.a < dotYs.length ∧ s.b < dotYs.length ∧ s.x = TIMEX ∧
          s.yTop = (dotYs.getD s.a 0 : Int) + (DOT_R : Int) ∧
          s.yBot = (dotYs.getD s.b 0 : Int) - (DOT_R : Int)))
    ∧ ((connectors [[0, 1, 2], [3, 4]] [300, 400, 500, 600, 700]).map
          (fun s => (s.a, s.b)) = [(0, 1), (1, 2), (3, 4)])
    ∧ (∀ (width : String → Nat) (rows : List RowData) (a b : Nat),
        a < b → b < (dotCenters width rows).length →
        ((dotCenters width rows).getD a 0 : Int) + (DOT_R : Int) ≤
          ((dotCenters width rows).getD b 0 : Int) - (DOT_R : Int)) := by
  refine ⟨?_, by decide, ?_⟩
  · intro groups dotYs s
    constructor
    · intro h
      simp only [connectors, List.mem_flatMap, List.mem_filterMap] at h
      obtain ⟨g, hg, p, hp, hps⟩ := h
      unfold segmentFor at hps
      split_ifs at hps with hcond
      · injection hps with hps
        subst hps
        exact ⟨⟨g, hg, (mem_consecutivePairs g p.1 p.2).mp (by simpa using hp)⟩,
          hcond.1, hcond.2, rfl, rfl, rfl⟩
    · rintro ⟨⟨g, hg, u, v, huv⟩, ha, hb, hx, hT, hB⟩
      simp only [connectors, List.mem_flatMap, List.mem_filterMap]
      refine ⟨g, hg, (s.a, s.b), (mem_consecutivePairs g s.a s.b).mpr ⟨u, v, huv⟩, ?_⟩
      unfold segmentFor
      rw [if_pos ⟨ha, hb⟩]
      cases s
      simp_all
  · intro width rows a b hab hblt
    have hp := layoutRows_mids_pairwise width rows 0 bodyStartY
    have heq : (layoutRows width rows 0 bodyStartY).1.map RowLayout.dotCenterY =
        dotCenters width rows := rfl
    rw [heq, List.pairwise_iff_getElem] at hp
    have halt : a < (dotCenters width rows).length := lt_trans hab hblt
    have h := hp a b halt hblt hab
    rw [List.getD_eq_getElem _ _ halt, List.getD_eq_getElem _ _ hblt]
    simp only [DOT_R]
    omega

/-- Witness for `connector_segments` on a concrete group table, dot
list and layout. -/
theorem connector_segments_witness :
    (Segment.mk 0 1 TIMEX 324 376) ∈ connectors [[0, 1, 2], [3, 4]] [300, 400, 500, 600, 700] ∧
    ((dotCenters widthZero [exampleRow, exampleRow]).getD 0 0 : Int) + (DOT_R : Int) ≤
      ((dotCenters widthZero [exampleRow, exampleRow]).getD 1 0 : Int) - (DOT_R : Int) := by
  constructor
  · exact (connector_segments.1 [[0, 1, 2], [3, 4]] [300, 400, 500, 600, 700]
      (Segment.mk 0 1 TIMEX 324 376)).mpr
      ⟨⟨[0, 1, 2], by simp, [], [2], by decide⟩, by decide, by decide, rfl,
        by decide, by decide⟩
  · exact connector_segments.2.2 widthZero [exampleRow, exampleRow] 0 1
      (by decide) (by decide)

/-- `find?` returns the first record whose name matches, skipping any
prefix of non-matching records. -/
lemma find_station_first (nm : String) :
    ∀ (pre : List ApiStation) (st : ApiStation) (post : List ApiStation),
      st.name = some nm → (∀ st2 ∈ pre, st2.name ≠ some nm) →
      List.find? (fun s => s.name == some nm) (pre ++ st :: post) = some st := by
  intro pre
  induction pre with
  | nil =>
    intro st post h _
    simp [List.find?_cons, h]
  | cons q qs ih =>
    intro st post h hpre
    have hq : (q.name == some nm) = false := by
      simp only [beq_eq_false_iff_ne, ne_eq]
      exact hpre q (by simp)
    simp only [List.cons_append, List.find?_cons, hq]
    exact ih st post h (fun s hs => hpre s (by simp [hs]))

/-- CLAIM C6: station resolution is a case-sensitive first-match lookup
on the record name; a found record contributes its raw status (default
`"NORMAL"`), the outflow-over-inflow discharge (default `"0"`) run
through `format_flow`, and the outflow-over-inflow trend (default
`"Steady"`); an absent record is replaced by the Normal/0 cusecs/Steady
default row; every configured station yields exactly one row. -/
theorem station_resolution :
    (∀ (api : ApiData) (nm : String) (pre post : List ApiStation) (st : ApiStation),
      api.data = pre ++ st :: post → st.name = some nm →
      (∀ st2 ∈ pre, st2.name ≠ some nm) →
      find_station_data api nm = some st)
    ∧ (∀ (api : ApiData) (nm : String) (st : ApiStation),
        find_station_data api nm = some st → st.name = some nm)
    ∧ (∀ (api : ApiData) (info : StationInfo) (st : ApiStation),
        find_station_data api info.api_name = some st →
        buildRow api info =
          { title := info.river ++ " at " ++ info.headwork
            severity := severityLabel (st.status.getD "NORMAL")
            flow := format_flow (st.outflow_discharge.getD (st.inflow_discharge.getD "0"))
            trend := st.outflow_trend.getD (st.inflow_trend.getD "Steady")
            short_name := info.short_name
            status := st.status.getD "NORMAL" })
    ∧ (∀ (api : ApiData) (info : StationInfo),
        find_station_data api info.api_name = none →
        buildRow api info =
          { title := info.river ++ " at " ++ info.headwork
            severity := "Normal"
            flow := "0 cusecs"
            trend := "Steady"
            short_name := info.short_name
            status := "NORMAL" })
    ∧ (∀ api : ApiData, (dashboardRows api).length = STATION_ORDER.length) := by
  refine ⟨?_, ?_, ?_, ?_, ?_⟩
  · intro api nm pre post st hdata hname hpre
    unfold find_station_data
    rw [hdata]
    exact find_station_first nm pre st post hname hpre
  · intro api nm st h
    have := List.find?_some h
    simpa using this
  · intro api info st h
    simp [buildRow, h]
  · intro api info h
    simp [buildRow, h]
  · intro api
    simp [dashboardRows]

/-- A concrete payload: Jassar present with full outflow data, every
other configured station absent. -/
def exApi : ApiData :=
  ⟨some "09-Sep-2025 13:00 PKT",
   [⟨some "Jassar", some "HIGH", some "12345", none, some "Rising", none⟩]⟩

def jassarInfo : StationInfo := ⟨"Jassar", "Jassar", "Ravi", "Jassar", "Jassar"⟩

def maralaInfo : StationInfo := ⟨"Marala", "Marala", "Chenab", "Marala", "Marala"⟩

/-- Witness for `station_resolution` on the concrete payload. -/
theorem station_resolution_witness :
    find_station_data exApi "Jassar" =
        some ⟨some "Jassar", some "HIGH", some "12345", none, some "Rising", none⟩ ∧
      buildRow exApi jassarInfo =
        { title := jassarInfo.river ++ " at " ++ jassarInfo.headwork
          severity := severityLabel ((some "HIGH" : Option String).getD "NORMAL")
          flow := format_flow ((some "12345" : Option String).getD
            ((none : Option String).getD "0"))
          trend := (some "Rising" : Option String).getD
            ((none : Option String).getD "Steady")
          short_name := jassarInfo.short_name
          status := (some "HIGH" : Option String).getD "NORMAL" } ∧
      buildRow exApi maralaInfo =
        { title := maralaInfo.river ++ " at " ++ maralaInfo.headwork
          severity := "Normal"
          flow := "0 cusecs"
          trend := "Steady"
          short_name := maralaInfo.short_name
          status := "NORMAL" } ∧
      (dashboardRows exApi).length = STATION_ORDER.length :=
  ⟨station_resolution.1 exApi "Jassar" [] []
      ⟨some "Jassar", some "HIGH", some "12345", none, some "Rising", none⟩
      rfl rfl (by simp),
   station_resolution.2.2.1 exApi jassarInfo
      ⟨some "Jassar", some "HIGH", some "12345", none, some "Rising", none⟩ (by decide),
   station_resolution.2.2.2.1 exApi maralaInfo (by decide),
   station_resolution.2.2.2.2 exApi⟩

/-- AMENDED CLAIM C8: when two consecutive runs see the same reporting
timestamp and that timestamp is unchanged by whitespace stripping (as
real report timestamps are), the first renders and then persists it —
the image event strictly precedes the marker write — and the second
compares it against the stripped read-back, produces no events and
leaves the state unchanged; the first run fires whenever the stripped
read-back of the marker differs from the timestamp, including when no
marker exists. -/
theorem timestamp_gate (api1 api2 : ApiData) (st : SysState) (ts : String)
    (h1 : api1.latest_reading_time = some ts)
    (h2 : api2.latest_reading_time = some ts)
    (hs : stripString ts = ts)
    (hm : get_last_timestamp st ≠ some ts) :
    (runOnce api1 st).2 =
        [RunEvent.renderImage (dashboardOutfile api1), RunEvent.saveTimestamp ts] ∧
      (runOnce api1 st).1.marker = some ts ∧
      (runOnce api1 st).1.images = st.images ++ [dashboardOutfile api1] ∧
      runOnce api2 (runOnce api1 st).1 = ((runOnce api1 st).1, []) := by
  have hm2 : some ts ≠ st.marker.map stripString := fun h =>
    hm (by rw [get_last_timestamp]; exact h.symm)
  simp [runOnce, should_generate_dashboard, get_last_timestamp, h1, h2, hm2, hs]

/-- A payload whose reporting timestamp carries a trailing space. -/
def wsApi : ApiData := ⟨some "09-Sep-2025 13:00 PKT ", []⟩

/-- COUNTEREXAMPLE to claim C8 as stated: both runs carry the same
timestamp string `"09-Sep-2025 13:00 PKT "` (trailing space); the
first run persists it verbatim, but `get_last_timestamp` strips the
read-back (app.py line 121), so the second run compares unequal and
renders an image again instead of skipping. -/
theorem timestamp_gate_counterexample :
    wsApi.latest_reading_time = some "09-Sep-2025 13:00 PKT " ∧
      (runOnce wsApi ⟨none, []⟩).1.marker = some "09-Sep-2025 13:00 PKT " ∧
      (runOnce wsApi (runOnce wsApi ⟨none, []⟩).1).2 =
        [RunEvent.renderImage (dashboardOutfile wsApi),
         RunEvent.saveTimestamp "09-Sep-2025 13:00 PKT "] := by
  decide

/-- Witness for `timestamp_gate`: first run from an empty state, second
run on the produced state. -/
theorem timestamp_gate_witness :
    (runOnce exApi ⟨none, []⟩).2 =
        [RunEvent.renderImage (dashboardOutfile exApi),
         RunEvent.saveTimestamp "09-Sep-2025 13:00 PKT"] ∧
      (runOnce exApi ⟨none, []⟩).1.marker = some "09-Sep-2025 13:00 PKT" ∧
      (runOnce exApi ⟨none, []⟩).1.images = ([] : List String) ++ [dashboardOutfile exApi] ∧
      runOnce exApi (runOnce exApi ⟨none, []⟩).1 = ((runOnce exApi ⟨none, []⟩).1, []) :=
  timestamp_gate exApi exApi ⟨none, []⟩ "09-Sep-2025 13:00 PKT" rfl rfl
    (by decide) (by decide)

/-- CLAIM C9: for a parseable report timestamp, the filename is the
no-leading-zero day, the month abbreviation, and the 12-hour time with
minutes omitted when zero and hyphen-joined when not, with the 12-hour
conversion mapping 0 to 12 AM, 12 to 12 PM and 13-23 to hour minus 12
PM; the two scenario timestamps give `"9 Sep 1 PM.png"` and
`"9 Sep 1-30 PM.png"`. -/
theorem outfile_format :
    (∀ (ts : String) (dt : DateTimeVal), parseTimestamp ts = some dt →
      outfileOfTimestamp ts =
        some (toString dt.day ++ " " ++ monthName dt.month ++ " " ++
          (if dt.minute = 0 then toString (hour12 dt.hour) ++ " " ++ ampmOf dt.hour
           else toString (hour12 dt.hour) ++ "-" ++ pad2 dt.minute ++ " " ++
             ampmOf dt.hour) ++ ".png"))
    ∧ (hour12 0 = 12 ∧ ampmOf 0 = "AM")
    ∧ (hour12 12 = 12 ∧ ampmOf 12 = "PM")
    ∧ (∀ h, 13 ≤ h → h ≤ 23 → hour12 h = h - 12 ∧ ampmOf h = "PM")
    ∧ outfileOfTimestamp "09-Sep-2025 13:00 PKT" = some "9 Sep 1 PM.png"
    ∧ outfileOfTimestamp "09-Sep-2025 13:30 PKT" = some "9 Sep 1-30 PM.png" := by
  refine ⟨?_, by decide, by decide, ?_, by decide, by decide⟩
  · intro ts dt h
    simp [outfileOfTimestamp, h, mkOutfile, filenameTimePart]
  · intro h h13 h23
    constructor
    · unfold hour12
      split_ifs <;> omega
    · unfold ampmOf
      split_ifs
      · exfalso
        omega
      · exfalso
        omega
      · rfl

/-- Witness for `outfile_format`: a midnight New-Year-eve timestamp and
the 13-hour conversion. -/
theorem outfile_format_witness :
    outfileOfTimestamp "31-Dec-2024 00:00 PST" = some "31 Dec 12 AM.png" ∧
      (hour12 13 = 13 - 12 ∧ ampmOf 13 = "PM") := by
  constructor
  · have h := outfile_format.1 "31-Dec-2024 00:00 PST" ⟨2024, 12, 31, 0, 0⟩ (by decide)
    rw [h]
    rfl
  · exact outfile_format.2.2.2.1 13 (by decide) (by decide)

/-- CLAIM C10: a payload with no reporting-timestamp field is treated
as the empty-string timestamp: with no prior marker the empty string
differs from `None`, so the run renders and persists `""`; a second
field-less run then compares equal and is skipped. -/
theorem missing_timestamp_field (api1 api2 : ApiData) (imgs : List String)
    (h1 : api1.latest_reading_time = none)
    (h2 : api2.latest_reading_time = none) :
    (runOnce api1 ⟨none, imgs⟩).2 =
        [RunEvent.renderImage (dashboardOutfile api1), RunEvent.saveTimestamp ""] ∧
      (runOnce api1 ⟨none, imgs⟩).1.marker = some "" ∧
      runOnce api2 (runOnce api1 ⟨none, imgs⟩).1 =
        ((runOnce api1 ⟨none, imgs⟩).1, []) := by
  have h0 : stripString "" = "" := rfl
  simp [runOnce, should_generate_dashboard, get_last_timestamp, h1, h2, h0]

def emptyApi : ApiData := ⟨none, []⟩

/-- Witness for `missing_timestamp_field` on the empty payload. -/
theorem missing_timestamp_field_witness :
    (runOnce emptyApi ⟨none, []⟩).2 =
        [RunEvent.renderImage (dashboardOutfile emptyApi), RunEvent.saveTimestamp ""] ∧
      (runOnce emptyApi ⟨none, []⟩).1.marker = some "" ∧
      runOnce emptyApi (runOnce emptyApi ⟨none, []⟩).1 =
        ((runOnce emptyApi ⟨none, []⟩).1, []) :=
  missing_timestamp_field emptyApi emptyApi [] rfl rfl

end SitUpdate
